import Mathlib

/-!
Verification of the Valence U-BMS CAN decoder and publisher
(`src/ubmsbattery.py`, `src/dbus_ubms.py`) against its specification.

The battery state and every decode branch of `UbmsBattery.on_message_received`
are embedded as executable Lean definitions.  Python byte access `data[i]` on a
too-short frame raises `IndexError`; this is modelled by returning the state as
mutated so far together with a flag telling whether an exception escaped the
handler (branches that the source wraps in `try/except` never let one escape).
Floats are modelled as `Rat`; machine bytes as `Nat`; signed values as `Int`.
-/

/-- One CAN frame as delivered by python-can: `msg.data` has exactly `msg.dlc`
bytes, so `dlc` is `data.length`. -/
structure CanMsg where
  arbitration_id : Nat
  data : List Nat
  timestamp : Int
deriving DecidableEq, Repr

/-- The mutable state of `UbmsBattery` (fields read or written by
`on_message_received`, `set_mode` and the publisher `_update`).
`state` is `none` while still the initial `""`; `maxChargeVoltage2` is `none`
until the attribute is first created by the `0xC2` branch. -/
structure BatteryState where
  capacity : Rat
  maxChargeVoltage : Rat
  numberOfModules : Nat
  numberOfStrings : Nat
  modulesInSeries : Nat
  cellsPerModule : Nat
  chargeComplete : Nat
  soc : Nat
  mode : Nat
  state : Option Nat
  voltage : Rat
  current : Int
  voltageAndCellTAlarms : Nat
  internalErrors : Nat
  currentAndPcbTAlarms : Nat
  shutdownReason : Nat
  maxPcbTemperature : Int
  maxCellTemperature : Int
  minCellTemperature : Int
  cellVoltages : List (List Int)
  moduleVoltage : List Int
  moduleCurrent : List Int
  moduleSoc : List Nat
  moduleTemp : List Rat
  maxCellVoltage : Rat
  minCellVoltage : Rat
  maxChargeCurrent : Rat
  maxDischargeCurrent : Rat
  numberOfModulesBalancing : Nat
  numberOfModulesCommunicating : Nat
  updated : Int
  maxChargeVoltage2 : Option Int
deriving DecidableEq, Repr

/-- `UbmsBattery.__init__(voltage, capacity, connection)`: the module/string
counts are hard-coded to 8 and 2; `modulesInSeries = 8 / 2 = 4`. -/
def initState (voltage capacity : Rat) : BatteryState where
  capacity := capacity
  maxChargeVoltage := voltage
  numberOfModules := 8
  numberOfStrings := 2
  modulesInSeries := 4
  cellsPerModule := 4
  chargeComplete := 0
  soc := 0
  mode := 0
  state := none
  voltage := 0
  current := 0
  voltageAndCellTAlarms := 0
  internalErrors := 0
  currentAndPcbTAlarms := 0
  shutdownReason := 0
  maxPcbTemperature := 0
  maxCellTemperature := 0
  minCellTemperature := 0
  cellVoltages := List.replicate 8 [0, 0, 0, 0]
  moduleVoltage := List.replicate 8 0
  moduleCurrent := List.replicate 8 0
  moduleSoc := List.replicate 8 0
  moduleTemp := List.replicate 8 0
  maxCellVoltage := 16 / 5
  minCellVoltage := 16 / 5
  maxChargeCurrent := 5
  maxDischargeCurrent := 5
  numberOfModulesBalancing := 0
  numberOfModulesCommunicating := 0
  updated := -1
  maxChargeVoltage2 := none

/-- `opState.get(m, 14)`: Victron BMS state for a (masked) mode. -/
def opState (m : Nat) : Nat :=
  if m = 0 then 14 else if m = 1 then 9 else if m = 2 then 9 else 14

/-- A 16-bit pattern read as a signed two's-complement value. -/
def toS16 (v : Nat) : Int :=
  if v % 65536 < 32768 then ((v % 65536 : Nat) : Int) else ((v % 65536 : Nat) : Int) - 65536

/-- `struct.unpack(">h", ...)`: big-endian signed 16-bit. -/
def beS16 (hi lo : Nat) : Int := toS16 (hi * 256 + lo)

/-- `struct.unpack("<h", ...)`: little-endian signed 16-bit. -/
def leS16 (lo hi : Nat) : Int := toS16 (hi * 256 + lo)

/-- `struct.unpack("Bb", ...)[1]`: signed 8-bit. -/
def s8 (b : Nat) : Int :=
  if b % 256 < 128 then ((b % 256 : Nat) : Int) else ((b % 256 : Nat) : Int) - 256

/-- Python `int(v / 10)`: true division then truncation toward zero. -/
def int_div10 (v : Int) : Int :=
  if 0 ≤ v then ((v.natAbs / 10 : Nat) : Int) else -((v.natAbs / 10 : Nat) : Int)

/-- `for idx, val in enumerate(vs): if iStart + idx < len(l): l[iStart+idx] = val` -/
def setFrom {α : Type} (l : List α) (i : Nat) (vs : List α) : List α :=
  match vs with
  | [] => l
  | v :: rest => setFrom (if i < l.length then l.set i v else l) (i + 1) rest

/-- Consecutive big-endian signed 16-bit values of a byte list
(`struct.unpack(">hh...h", ...)`). -/
def beS16List : List Nat → List Int
  | hi :: lo :: rest => beS16 hi lo :: beS16List rest
  | _ => []

/-- `(val * 100) >> 8`: raw per-module SoC byte to stored value
(src/ubmsbattery.py line 348). -/
def modSocStore (raw : Nat) : Nat := (raw * 100) >>> 8

/-- `0xC0` status branch.  Assignments happen in source order; a missing byte
raises `IndexError`, keeping all assignments already performed (no `try`). -/
def decodeC0 (s : BatteryState) (d : List Nat) : BatteryState × Bool :=
  match d with
  | [] => (s, true)
  | [d0] => ({s with soc := d0}, true)
  | [d0, d1] =>
      ({s with soc := d0, mode := d1, state := some (opState (d1 &&& 3))}, true)
  | [d0, d1, d2] =>
      ({s with
          soc := d0, mode := d1, state := some (opState (d1 &&& 3)),
          voltageAndCellTAlarms := d2}, true)
  | [d0, d1, d2, d3] =>
      ({s with
          soc := d0, mode := d1, state := some (opState (d1 &&& 3)),
          voltageAndCellTAlarms := d2, internalErrors := d3}, true)
  | [d0, d1, d2, d3, d4] =>
      ({s with
          soc := d0, mode := d1, state := some (opState (d1 &&& 3)),
          voltageAndCellTAlarms := d2, internalErrors := d3,
          currentAndPcbTAlarms := d4}, true)
  | [d0, d1, d2, d3, d4, d5] =>
      let nm := if d2 &&& 1 = 0 ∧ d3 &&& 2 = 0 then d5 else s.numberOfModules
      ({s with
          soc := d0, mode := d1, state := some (opState (d1 &&& 3)),
          voltageAndCellTAlarms := d2, internalErrors := d3,
          currentAndPcbTAlarms := d4, numberOfModulesCommunicating := d5,
          numberOfModules := nm}, true)
  | [d0, d1, d2, d3, d4, d5, d6] =>
      let nm := if d2 &&& 1 = 0 ∧ d3 &&& 2 = 0 then d5 else s.numberOfModules
      ({s with
          soc := d0, mode := d1, state := some (opState (d1 &&& 3)),
          voltageAndCellTAlarms := d2, internalErrors := d3,
          currentAndPcbTAlarms := d4, numberOfModulesCommunicating := d5,
          numberOfModules := nm, numberOfModulesBalancing := d6}, true)
  | d0 :: d1 :: d2 :: d3 :: d4 :: d5 :: d6 :: d7 :: _ =>
      let nm := if d2 &&& 1 = 0 ∧ d3 &&& 2 = 0 then d5 else s.numberOfModules
      ({s with
          soc := d0, mode := d1, state := some (opState (d1 &&& 3)),
          voltageAndCellTAlarms := d2, internalErrors := d3,
          currentAndPcbTAlarms := d4, numberOfModulesCommunicating := d5,
          numberOfModules := nm, numberOfModulesBalancing := d6,
          shutdownReason := d7}, false)

/-- `0xC1` current branch.  `struct.unpack("Bb", data[0:2])` needs two bytes
(uncaught `struct.error` otherwise); the Drive-mode current-limit decodes are
each wrapped in `try/except` that zeroes the limit on failure. -/
def decodeC1 (s : BatteryState) (d : List Nat) : BatteryState × Bool :=
  match d[1]? with
  | none => (s, true)
  | some d1 =>
    let s1 := {s with current := s8 d1}
    if s1.mode &&& 2 ≠ 0 then
      let idmax : Rat :=
        match d[3]?, d[4]? with
        | some a, some b => ((int_div10 (leS16 a b) : Int) : Rat)
        | _, _ => 0
      let s2 := {s1 with maxDischargeCurrent := idmax}
      let icmax : Rat :=
        match d[5]?, d[7]? with
        | some a, some b => ((int_div10 (leS16 a b) : Int) : Rat)
        | _, _ => 0
      let s3 := {s2 with maxChargeCurrent := icmax}
      (s3, false)
    else (s1, false)

/-- `0xC2` charge-parameter branch (Charge mode only, no `try`):
`data[3]` is read first, so a frame shorter than 4 bytes raises before any
assignment; otherwise bytes 0..2 are present as well. -/
def decodeC2 (s : BatteryState) (d : List Nat) : BatteryState × Bool :=
  if s.mode &&& 1 ≠ 0 then
    match d[3]? with
    | none => (s, true)
    | some d3 =>
      let s1 := {s with chargeComplete := (d3 &&& 4) >>> 2,
                        maxChargeVoltage2 := some (leS16 (d.getD 1 0) (d.getD 2 0))}
      if s1.mode &&& 0x18 = 0x18 then
        ({s1 with maxChargeCurrent := ((d.getD 0 0 : Nat) : Rat)}, false)
      else
        ({s1 with maxChargeCurrent := s1.capacity * (1 / 10)}, false)
  else (s, false)

/-- `0xC4` pack temperature / cell extremes branch (no `try`). -/
def decodeC4 (s : BatteryState) (d : List Nat) : BatteryState × Bool :=
  match d[0]? with
  | none => (s, true)
  | some d0 =>
    let s1 := {s with maxCellTemperature := ((d0 : Nat) : Int) - 40}
    match d[1]? with
    | none => (s1, true)
    | some d1 =>
      let s2 := {s1 with minCellTemperature := ((d1 : Nat) : Int) - 40}
      match d[3]? with
      | none => (s2, true)
      | some d3 =>
        let s3 := {s2 with maxPcbTemperature := ((d3 : Nat) : Int) - 40}
        match d[4]?, d[5]? with
        | some d4, some d5 =>
          let s4 := {s3 with maxCellVoltage := ((leS16 d4 d5 : Int) : Rat) * (1 / 1000)}
          match d[6]?, d[7]? with
          | some d6, some d7 =>
            ({s4 with minCellVoltage := ((leS16 d6 d7 : Int) : Rat) * (1 / 1000)}, false)
          | _, _ => (s4, true)
        | _, _ => (s3, true)

/-- Even cell-voltage carrier: cells 1..3 of a module, `try`-protected;
`struct.unpack(">hhh", data[2:dlc])` succeeds only when `dlc = 8`, and the
list write only when the module index is in range. -/
def decodeCellEven (s : BatteryState) (module : Nat) (d : List Nat) : BatteryState × Bool :=
  if module < s.cellVoltages.length ∧ d.length = 8 then
    let t := [beS16 (d.getD 2 0) (d.getD 3 0), beS16 (d.getD 4 0) (d.getD 5 0),
              beS16 (d.getD 6 0) (d.getD 7 0)]
    ({s with cellVoltages := s.cellVoltages.set module t}, false)
  else (s, false)

/-- Odd cell-voltage carrier: the cell-4 value is APPENDED to the module's
tuple, and the module voltage is the sum of the grown tuple (`try`-protected).
Afterwards (unconditionally) the pack voltage is recomputed when this is the
odd frame of module `numberOfModules - 1` and all of
`moduleVoltage[0:modulesInSeries]` are positive. -/
def cellOddUpd (s : BatteryState) (module : Nat) (d : List Nat) : BatteryState :=
  if module < s.cellVoltages.length ∧ d.length = 4 then
    let t := s.cellVoltages.getD module [] ++ [beS16 (d.getD 2 0) (d.getD 3 0)]
    {s with cellVoltages := s.cellVoltages.set module t,
            moduleVoltage := s.moduleVoltage.set module t.sum}
  else s

/-- The unconditional pack-voltage block that follows the odd carrier's
`try` block: recompute the pack voltage when this is the odd frame of module
`numberOfModules - 1` and all of `moduleVoltage[0:modulesInSeries]` are
positive (the comparison is on integers, as in Python: with
`numberOfModules = 0` no module matches `-1`). -/
def packVoltageUpd (s1 : BatteryState) (module : Nat) : BatteryState :=
  if (module : Int) = (s1.numberOfModules : Int) - 1 then
    if (s1.moduleVoltage.take s1.modulesInSeries).all (fun v => decide (0 < v)) then
      {s1 with voltage :=
        (((s1.moduleVoltage.take s1.modulesInSeries).sum : Int) : Rat) * (1 / 1000)}
    else s1
  else s1

def decodeCellOdd (s : BatteryState) (module : Nat) (d : List Nat) : BatteryState × Bool :=
  (packVoltageUpd (cellOddUpd s module d) module, false)

/-- `0x46A..0x46D` per-module current branch, `try`-protected.  The format
string `">" + "h" * int((dlc-2)/2)` matches the payload exactly when
`dlc - 2` is even (with `dlc ≤ 2` both sides are empty). -/
def decodeModuleCurrent (s : BatteryState) (iStart : Nat) (d : List Nat) : BatteryState × Bool :=
  if (d.length - 2) % 2 = 0 then
    ({s with moduleCurrent := setFrom s.moduleCurrent iStart (beS16List (d.drop 2))}, false)
  else (s, false)

/-- `0x6A/0x6B` per-module SoC branch, `try`-protected; the unpack of
`dlc - 1` raw bytes always succeeds. -/
def decodeModuleSoc (s : BatteryState) (iStart : Nat) (d : List Nat) : BatteryState × Bool :=
  ({s with moduleSoc := setFrom s.moduleSoc iStart ((d.drop 1).map modSocStore)}, false)

/-- The three slot writes of the `0x76A..0x76D` branch on the `moduleTemp`
list.  Slot 0 is guarded only by the index bound; slots 1 and 2 are
additionally guarded by `dlc > 5` and `dlc > 7`, which also guarantee their
bytes exist.  (When the slot-0 bound holds but the frame is shorter than
4 bytes, the `data[2]`/`data[3]` read raises inside the `try` before any
write -- that case is excluded in `decodeModuleTemp` below.) -/
def tempChainUpd (l : List Rat) (iStart : Nat) (d : List Nat) : List Rat :=
  let l1 :=
    if iStart < l.length then
      l.set iStart (((d.getD 2 0 * 256 + d.getD 3 0 : Nat) : Rat) * (1 / 100))
    else l
  let l2 :=
    if d.length > 5 ∧ iStart + 1 < l1.length then
      l1.set (iStart + 1) (((d.getD 4 0 * 256 + d.getD 5 0 : Nat) : Rat) * (1 / 100))
    else l1
  if d.length > 7 ∧ iStart + 2 < l2.length then
    l2.set (iStart + 2) (((d.getD 6 0 * 256 + d.getD 7 0 : Nat) : Rat) * (1 / 100))
  else l2

/-- `0x76A..0x76D` per-module temperature branch, `try`-protected (the three
slot writes of `tempChainUpd`, only `moduleTemp` is touched). -/
def decodeModuleTemp (s : BatteryState) (iStart : Nat) (d : List Nat) : BatteryState × Bool :=
  if iStart < s.moduleTemp.length ∧ d.length < 4 then
    (s, false)
  else
    ({s with moduleTemp := tempChainUpd s.moduleTemp iStart d}, false)

/-- Arbitration ids carrying cells 1..3 of a module. -/
def evenCellIds : List Nat :=
  [0x350, 0x352, 0x354, 0x356, 0x358, 0x35A, 0x35C, 0x35E, 0x360, 0x362, 0x364]

/-- Arbitration ids carrying cell 4 of a module. -/
def oddCellIds : List Nat :=
  [0x351, 0x353, 0x355, 0x357, 0x359, 0x35B, 0x35D, 0x35F, 0x361, 0x363, 0x365]

/-- `UbmsBattery.on_message_received`: stamps `updated` with the frame's
timestamp, then dispatches on the arbitration id.  The returned flag is true
when an exception escaped the handler. -/
def on_message_received (s0 : BatteryState) (msg : CanMsg) : BatteryState × Bool :=
  let s := {s0 with updated := msg.timestamp}
  if msg.arbitration_id = 0xC0 then decodeC0 s msg.data
  else if msg.arbitration_id = 0xC1 then decodeC1 s msg.data
  else if msg.arbitration_id = 0xC2 then decodeC2 s msg.data
  else if msg.arbitration_id = 0xC4 then decodeC4 s msg.data
  else if msg.arbitration_id ∈ evenCellIds then
    decodeCellEven s ((msg.arbitration_id - 0x350) >>> 1) msg.data
  else if msg.arbitration_id ∈ oddCellIds then
    decodeCellOdd s ((msg.arbitration_id - 0x351) >>> 1) msg.data
  else if msg.arbitration_id ∈ [0x46A, 0x46B, 0x46C, 0x46D] then
    decodeModuleCurrent s ((msg.arbitration_id - 0x46A) * 3) msg.data
  else if msg.arbitration_id ∈ [0x6A, 0x6B] then
    decodeModuleSoc s ((msg.arbitration_id - 0x6A) * 7) msg.data
  else if msg.arbitration_id ∈ [0x76A, 0x76B, 0x76C, 0x76D] then
    decodeModuleTemp s ((msg.arbitration_id - 0x76A) * 3) msg.data
  else (s, false)

/-- Decode a list of frames in arrival order (state projection only). -/
def decodeAll (s : BatteryState) (msgs : List CanMsg) : BatteryState :=
  msgs.foldl (fun a m => (on_message_received a m).1) s

/-- `UbmsBattery.set_mode` (src/ubmsbattery.py lines 368..396), with the CAN
send assumed to succeed.  The state is the mode byte of the periodic `0x440`
frame currently transmitted (`none` when no cyclic task exists).  The source
checks only membership of the requested mode in `[0, 1, 2]`; it never reads
the current mode. -/
def set_mode (cyclicModeTask : Option Nat) (mode : Nat) : Bool × Option Nat :=
  if mode = 0 ∨ mode = 1 ∨ mode = 2 then
    (true, some mode)
  else
    (false, cyclicModeTask)

/-- `_update` line 250: `/Connected` is published as
`1 if getattr(self._bat, "updated", -1) != -1 else 0`. -/
def publishConnected (s : BatteryState) : Nat :=
  if s.updated = -1 then 0 else 1

/-- `itertools.chain(*self._bat.cellVoltages)`: the flat cell-voltage list. -/
def flatCellVoltages (s : BatteryState) : List Int := s.cellVoltages.flatten

/-- Python `min` of a list (first argument wins ties; meaningful only on a
non-empty list, which `_update` guards with `if cell_voltages:`). -/
def pyListMin : List Int → Int
  | [] => 0
  | x :: xs => xs.foldl min x

/-- Python `max` of a list. -/
def pyListMax : List Int → Int
  | [] => 0
  | x :: xs => xs.foldl max x

/-- `_update` lines 214..227: the location of the published minimum-voltage
cell, as the pair (module number, cell number), both one-based, i.e. the
`(min_module, min_cell)` of the string `"M{min_module}C{min_cell}"`.
`cells_per_module` is the battery's `cellsPerModule`. -/
def minVoltageCellIdPub (s : BatteryState) : Nat × Nat :=
  let cv := flatCellVoltages s
  if cv.isEmpty then (1, 1)
  else
    let idx := cv.indexOf (pyListMin cv)
    (idx / s.cellsPerModule + 1, idx % s.cellsPerModule + 1)

/-- `_update`: the location of the published maximum-voltage cell. -/
def maxVoltageCellIdPub (s : BatteryState) : Nat × Nat :=
  let cv := flatCellVoltages s
  if cv.isEmpty then (1, 1)
  else
    let idx := cv.indexOf (pyListMax cv)
    (idx / s.cellsPerModule + 1, idx % s.cellsPerModule + 1)

/-- `_update` lines 288..294: `/Alarms/CellImbalance` (0, 1 or 2). -/
def alarmCellImbalance (s : BatteryState) : Nat :=
  if s.maxCellVoltage - s.minCellVoltage > 1 / 4 then 2
  else if s.maxCellVoltage - s.minCellVoltage ≥ 18 / 100 then 1
  else 0

/-- `_update` line 295: `/Alarms/LowVoltage`. -/
def alarmLowVoltage (s : BatteryState) : Nat := (s.voltageAndCellTAlarms &&& 0x10) >>> 4

/-- `_update` line 296: `/Alarms/HighVoltage`. -/
def alarmHighVoltage (s : BatteryState) : Nat := (s.voltageAndCellTAlarms &&& 0x20) >>> 5

/-- `_update` line 297: `/Alarms/HighDischargeCurrent`. -/
def alarmHighDischargeCurrent (s : BatteryState) : Nat := s.currentAndPcbTAlarms &&& 0x3

/-- `_update` line 298: `/Alarms/HighChargeCurrent`. -/
def alarmHighChargeCurrent (s : BatteryState) : Nat := (s.currentAndPcbTAlarms &&& 0xC) >>> 2

/-- `_update` line 299: `/Alarms/LowSoc`. -/
def alarmLowSoc (s : BatteryState) : Nat := (s.voltageAndCellTAlarms &&& 0x08) >>> 3

/-- `_update` line 300: `/Alarms/LowTemperature`. -/
def alarmLowTemperature (s : BatteryState) : Nat := (s.mode &&& 0x60) >>> 5

/-- `_update` line 301: `/Alarms/HighTemperature`. -/
def alarmHighTemperature (s : BatteryState) : Nat :=
  ((s.voltageAndCellTAlarms &&& 0x6) >>> 1) ||| ((s.currentAndPcbTAlarms &&& 0x18) >>> 3)

/-- Parameter names of `UbmsBattery.__init__` (src/ubmsbattery.py line 31),
`self` excluded. -/
def ubmsInitParams : List String := ["voltage", "capacity", "connection"]

/-- Keyword-argument names used by `DbusBatteryService.__init__` when it
constructs `UbmsBattery` (src/dbus_ubms.py lines 49..55). -/
def dbusServiceUbmsKwargs : List String :=
  ["capacity", "voltage", "connection", "numberOfModules", "numberOfStrings"]

/-- Python call binding: with no `**kwargs` in the signature, a call binds
exactly when every keyword names a declared parameter; otherwise the call
raises `TypeError`. -/
def kwargsBind (params kwargs : List String) : Bool :=
  kwargs.all (fun k => params.contains k)

/-- `UbmsBattery(...)` called with the given keyword names: `none` models the
`TypeError`; on success the instance starts from `initState`. -/
def constructUbmsBattery (voltage capacity : Rat) (kwargs : List String) : Option BatteryState :=
  if kwargsBind ubmsInitParams kwargs then some (initState voltage capacity) else none

/-- `DbusBatteryService.__init__`: the battery is constructed first
(line 49); only if that succeeds does the service object get created and its
bus paths registered (lines 56 onward).  The result pairs the battery with
the registered-path marker list; `none` means the constructor raised before
registering anything. -/
def dbusBatteryServiceInit (voltage capacity : Rat) : Option (BatteryState × List String) :=
  match constructUbmsBattery voltage capacity dbusServiceUbmsKwargs with
  | none => none
  | some bat => some (bat, ["/Mgmt/ProcessName", "/Mgmt/ProcessVersion", "/Mgmt/Connection",
      "/DeviceInstance", "/ProductId", "/ProductName", "/Manufacturer",
      "/FirmwareVersion", "/HardwareVersion", "/Connected"])

set_option maxRecDepth 20000

/-- A default battery configuration (the spec's end-to-end scenario:
58 V max charge voltage, 130 Ah). -/
def s0 : BatteryState := initState 58 130

/-- Even cell-voltage frame of module `m`: cells 1..3 at 3300 mV
(0x0CE4 big-endian). -/
def mCellEven (m : Nat) : CanMsg := ⟨0x350 + 2 * m, [0, 0, 12, 228, 12, 228, 12, 228], 0⟩

/-- Odd cell-voltage frame of module `m`: cell 4 at 3300 mV. -/
def mCellOdd (m : Nat) : CanMsg := ⟨0x351 + 2 * m, [0, 0, 12, 228], 0⟩

/-- State after module 0 has reported all four cells at 3300 mV. -/
def sOneModule : BatteryState := decodeAll s0 [mCellEven 0, mCellOdd 0]

/-- State after modules 0..2 reported fully and module 3 reported cells 1..3:
one odd frame of module 3 away from four complete series modules. -/
def sThreeAndAHalf : BatteryState :=
  decodeAll s0 [mCellEven 0, mCellOdd 0, mCellEven 1, mCellOdd 1,
                mCellEven 2, mCellOdd 2, mCellEven 3]

/-- State after a status frame reporting `currentAndPcbTAlarms = 3`. -/
def sStatus3 : BatteryState := (on_message_received s0 ⟨0xC0, [0, 0, 0, 0, 3, 0, 0, 0], 0⟩).1

/-- State after a normal Drive-mode status frame at timestamp 0. -/
def sStatusFull : BatteryState := (on_message_received s0 ⟨0xC0, [50, 2, 0, 0, 0, 8, 0, 0], 0⟩).1

/-- State after a status frame whose mode byte is `0x18`
(Charge with the equalize bits set). -/
def sMode18 : BatteryState := (on_message_received s0 ⟨0xC0, [50, 0x18, 0, 0, 0, 8, 0, 0], 0⟩).1

theorem collapse_updated (r : BatteryState) (t : Int) (h : r.updated = t) :
    ({r with updated := t} : BatteryState) = r := by
  subst h; rfl

theorem decodeC0_updated (s : BatteryState) (d : List Nat) :
    (decodeC0 s d).1.updated = s.updated := by
  unfold decodeC0; dsimp only; repeat' split
  all_goals rfl

theorem decodeC1_updated (s : BatteryState) (d : List Nat) :
    (decodeC1 s d).1.updated = s.updated := by
  unfold decodeC1; dsimp only; repeat' split
  all_goals rfl

theorem decodeC2_updated (s : BatteryState) (d : List Nat) :
    (decodeC2 s d).1.updated = s.updated := by
  unfold decodeC2; dsimp only; repeat' split
  all_goals rfl

theorem decodeC4_updated (s : BatteryState) (d : List Nat) :
    (decodeC4 s d).1.updated = s.updated := by
  unfold decodeC4; dsimp only; repeat' split
  all_goals rfl

theorem decodeCellEven_updated (s : BatteryState) (module : Nat) (d : List Nat) :
    (decodeCellEven s module d).1.updated = s.updated := by
  unfold decodeCellEven; dsimp only; repeat' split
  all_goals rfl

theorem decodeCellOdd_updated (s : BatteryState) (module : Nat) (d : List Nat) :
    (decodeCellOdd s module d).1.updated = s.updated := by
  unfold decodeCellOdd packVoltageUpd cellOddUpd; dsimp only; repeat' split
  all_goals rfl

theorem decodeModuleCurrent_updated (s : BatteryState) (iStart : Nat) (d : List Nat) :
    (decodeModuleCurrent s iStart d).1.updated = s.updated := by
  unfold decodeModuleCurrent; repeat' split
  all_goals rfl

theorem decodeModuleSoc_updated (s : BatteryState) (iStart : Nat) (d : List Nat) :
    (decodeModuleSoc s iStart d).1.updated = s.updated := by
  unfold decodeModuleSoc; rfl

theorem decodeModuleTemp_updated (s : BatteryState) (iStart : Nat) (d : List Nat) :
    (decodeModuleTemp s iStart d).1.updated = s.updated := by
  unfold decodeModuleTemp; repeat' split
  all_goals rfl

theorem on_message_received_updated (s : BatteryState) (m : CanMsg) :
    (on_message_received s m).1.updated = m.timestamp := by
  unfold on_message_received
  split_ifs
  all_goals
    first
    | rfl
    | rw [decodeC0_updated]
    | rw [decodeC1_updated]
    | rw [decodeC2_updated]
    | rw [decodeC4_updated]
    | rw [decodeCellEven_updated]
    | rw [decodeCellOdd_updated]
    | rw [decodeModuleCurrent_updated]
    | rw [decodeModuleSoc_updated]
    | rw [decodeModuleTemp_updated]

theorem setFrom_length {α : Type} (vs : List α) (l : List α) (i : Nat) :
    (setFrom l i vs).length = l.length := by
  induction vs generalizing l i with
  | nil => rfl
  | cons v rest ih =>
      rw [setFrom, ih]
      split <;> simp [List.length_set]

theorem setFrom_set_high {α : Type} (vs : List α) (l : List α) (a : α) (j i : Nat)
    (hj : j < i) :
    setFrom (l.set j a) i vs = (setFrom l i vs).set j a := by
  induction vs generalizing l i with
  | nil => rfl
  | cons v rest ih =>
      rw [setFrom, setFrom, List.length_set]
      by_cases h : i < l.length
      · rw [if_pos h, if_pos h, List.set_comm a v l (Nat.ne_of_lt hj),
          ih _ _ (Nat.lt_succ_of_lt hj)]
      · rw [if_neg h, if_neg h, ih _ _ (Nat.lt_succ_of_lt hj)]

theorem setFrom_idem {α : Type} (vs : List α) (l : List α) (i : Nat) :
    setFrom (setFrom l i vs) i vs = setFrom l i vs := by
  induction vs generalizing l i with
  | nil => rfl
  | cons v rest ih =>
      by_cases h : i < l.length
      · have hM : setFrom l i (v :: rest) = setFrom (l.set i v) (i + 1) rest := by
          rw [setFrom, if_pos h]
        rw [hM]
        rw [setFrom, setFrom_length, List.length_set, if_pos h]
        rw [← setFrom_set_high rest (l.set i v) v i (i + 1) (Nat.lt_succ_self i),
          List.set_set]
        exact ih _ _
      · have hM : setFrom l i (v :: rest) = setFrom l (i + 1) rest := by
          rw [setFrom, if_neg h]
        rw [hM]
        rw [setFrom, setFrom_length, if_neg h]
        exact ih _ _

theorem setFrom_mem {α : Type} (vs : List α) (l : List α) (i : Nat) (x : α)
    (hx : x ∈ setFrom l i vs) : x ∈ l ∨ x ∈ vs := by
  induction vs generalizing l i with
  | nil => exact Or.inl hx
  | cons v rest ih =>
      rw [setFrom] at hx
      rcases ih _ _ hx with h | h
      · by_cases hc : i < l.length
        · rw [if_pos hc] at h
          rcases List.mem_or_eq_of_mem_set h with h2 | h2
          · exact Or.inl h2
          · exact Or.inr (h2 ▸ List.mem_cons_self v rest)
        · rw [if_neg hc] at h
          exact Or.inl h
      · exact Or.inr (List.mem_cons_of_mem v h)

theorem decodeC0_idem (s : BatteryState) (d : List Nat) :
    decodeC0 (decodeC0 s d).1 d = decodeC0 s d := by
  unfold decodeC0
  split <;> dsimp only <;> (repeat' split) <;> rfl

theorem decodeC1_idem (s : BatteryState) (d : List Nat) :
    decodeC1 (decodeC1 s d).1 d = decodeC1 s d := by
  unfold decodeC1
  split <;> dsimp only <;> (repeat' split) <;> rfl

theorem decodeC2_idem (s : BatteryState) (d : List Nat) :
    decodeC2 (decodeC2 s d).1 d = decodeC2 s d := by
  by_cases h1 : s.mode % 2 = 1
  · cases h3 : d[3]? with
    | none => simp [decodeC2, h1, h3]
    | some d3 =>
      by_cases h2 : s.mode &&& 24 = 24 <;>
        simp [decodeC2, h1, h2, h3]
  · simp [decodeC2, h1]

theorem decodeC4_idem (s : BatteryState) (d : List Nat) :
    decodeC4 (decodeC4 s d).1 d = decodeC4 s d := by
  unfold decodeC4
  dsimp only
  repeat' split
  all_goals first | rfl | simp_all

theorem decodeCellEven_idem (s : BatteryState) (module : Nat) (d : List Nat) :
    decodeCellEven (decodeCellEven s module d).1 module d = decodeCellEven s module d := by
  by_cases h : module < s.cellVoltages.length ∧ d.length = 8
  · simp [decodeCellEven, h, List.length_set, List.set_set]
  · simp [decodeCellEven, h]

theorem decodeModuleCurrent_idem (s : BatteryState) (iStart : Nat) (d : List Nat) :
    decodeModuleCurrent (decodeModuleCurrent s iStart d).1 iStart d
      = decodeModuleCurrent s iStart d := by
  by_cases h : (d.length - 2) % 2 = 0 <;>
    simp [decodeModuleCurrent, h, setFrom_idem]

theorem decodeModuleSoc_idem (s : BatteryState) (iStart : Nat) (d : List Nat) :
    decodeModuleSoc (decodeModuleSoc s iStart d).1 iStart d = decodeModuleSoc s iStart d := by
  simp [decodeModuleSoc, setFrom_idem]

theorem set_collapse2 {α : Type} (l : List α) (a b : Nat) (x y : α) (hab : a ≠ b) :
    ((l.set a x).set b y).set a x = (l.set a x).set b y := by
  rw [List.set_comm x y l hab, List.set_set]

theorem set2_chain_idem {α : Type} (l : List α) (a b : Nat) (x y : α) (hab : a ≠ b) :
    (((l.set a x).set b y).set a x).set b y = (l.set a x).set b y := by
  rw [set_collapse2 l a b x y hab, List.set_set]

theorem set3_chain_idem {α : Type} (l : List α) (a b c : Nat) (x y z : α)
    (hab : a ≠ b) (hca : c ≠ a) (hcb : c ≠ b) :
    (((((l.set a x).set b y).set c z).set a x).set b y).set c z
      = ((l.set a x).set b y).set c z := by
  have e2 : (((l.set a x).set b y).set c z).set a x = ((l.set a x).set b y).set c z := by
    rw [List.set_comm z x ((l.set a x).set b y) hca, set_collapse2 l a b x y hab]
  have e3 : (((l.set a x).set b y).set c z).set b y = ((l.set a x).set b y).set c z := by
    rw [List.set_comm z y ((l.set a x).set b y) hcb, List.set_set]
  rw [e2, e3, List.set_set]

theorem tempChainUpd_length (l : List Rat) (iStart : Nat) (d : List Nat) :
    (tempChainUpd l iStart d).length = l.length := by
  unfold tempChainUpd
  dsimp only
  repeat' split
  all_goals simp [List.length_set]

theorem tempChainUpd_idem (l : List Rat) (iStart : Nat) (d : List Nat) :
    tempChainUpd (tempChainUpd l iStart d) iStart d = tempChainUpd l iStart d := by
  by_cases h1 : iStart < l.length
  · by_cases h3 : d.length > 7 ∧ iStart + 2 < l.length
    · have h2 : d.length > 5 ∧ iStart + 1 < l.length := by omega
      simp [tempChainUpd, h1, h2, h3, List.length_set]
      exact set3_chain_idem _ _ _ _ _ _ _ (by omega) (by omega) (by omega)
    · by_cases h2 : d.length > 5 ∧ iStart + 1 < l.length
      · simp [tempChainUpd, h1, h2, h3, List.length_set]
        exact set2_chain_idem _ _ _ _ _ (by omega)
      · simp [tempChainUpd, h1, h2, h3, List.length_set, List.set_set]
  · have h2 : ¬ (d.length > 5 ∧ iStart + 1 < l.length) := by omega
    have h3 : ¬ (d.length > 7 ∧ iStart + 2 < l.length) := by omega
    simp [tempChainUpd, h1, h2, h3]

theorem decodeModuleTemp_idem (s : BatteryState) (iStart : Nat) (d : List Nat) :
    decodeModuleTemp (decodeModuleTemp s iStart d).1 iStart d
      = decodeModuleTemp s iStart d := by
  by_cases hg : iStart < s.moduleTemp.length ∧ d.length < 4
  · simp [decodeModuleTemp, hg]
  · have e : decodeModuleTemp s iStart d
        = ({s with moduleTemp := tempChainUpd s.moduleTemp iStart d}, false) := by
      unfold decodeModuleTemp; rw [if_neg hg]
    have hg2 : ¬ (iStart < (tempChainUpd s.moduleTemp iStart d).length ∧ d.length < 4) := by
      rw [tempChainUpd_length]; exact hg
    rw [e]
    unfold decodeModuleTemp
    dsimp only
    rw [if_neg hg2, tempChainUpd_idem]

theorem decodeC0_voltage (s : BatteryState) (d : List Nat) :
    (decodeC0 s d).1.voltage = s.voltage := by
  unfold decodeC0; dsimp only; repeat' split
  all_goals rfl

theorem decodeC1_voltage (s : BatteryState) (d : List Nat) :
    (decodeC1 s d).1.voltage = s.voltage := by
  unfold decodeC1; dsimp only; repeat' split
  all_goals rfl

theorem decodeC2_voltage (s : BatteryState) (d : List Nat) :
    (decodeC2 s d).1.voltage = s.voltage := by
  unfold decodeC2; dsimp only; repeat' split
  all_goals rfl

theorem decodeC4_voltage (s : BatteryState) (d : List Nat) :
    (decodeC4 s d).1.voltage = s.voltage := by
  unfold decodeC4; dsimp only; repeat' split
  all_goals rfl

theorem decodeCellEven_voltage (s : BatteryState) (module : Nat) (d : List Nat) :
    (decodeCellEven s module d).1.voltage = s.voltage := by
  unfold decodeCellEven; dsimp only; repeat' split
  all_goals rfl

theorem decodeModuleCurrent_voltage (s : BatteryState) (iStart : Nat) (d : List Nat) :
    (decodeModuleCurrent s iStart d).1.voltage = s.voltage := by
  unfold decodeModuleCurrent; repeat' split
  all_goals rfl

theorem decodeModuleSoc_voltage (s : BatteryState) (iStart : Nat) (d : List Nat) :
    (decodeModuleSoc s iStart d).1.voltage = s.voltage := by
  unfold decodeModuleSoc; rfl

theorem decodeModuleTemp_voltage (s : BatteryState) (iStart : Nat) (d : List Nat) :
    (decodeModuleTemp s iStart d).1.voltage = s.voltage := by
  unfold decodeModuleTemp; repeat' split
  all_goals rfl

theorem cellOddUpd_voltage (s : BatteryState) (module : Nat) (d : List Nat) :
    (cellOddUpd s module d).voltage = s.voltage := by
  unfold cellOddUpd; dsimp only; split
  all_goals rfl

theorem cellOddUpd_numberOfModules (s : BatteryState) (module : Nat) (d : List Nat) :
    (cellOddUpd s module d).numberOfModules = s.numberOfModules := by
  unfold cellOddUpd; dsimp only; split
  all_goals rfl

theorem cellOddUpd_modulesInSeries (s : BatteryState) (module : Nat) (d : List Nat) :
    (cellOddUpd s module d).modulesInSeries = s.modulesInSeries := by
  unfold cellOddUpd; dsimp only; split
  all_goals rfl

theorem packVoltageUpd_moduleVoltage (s1 : BatteryState) (module : Nat) :
    (packVoltageUpd s1 module).moduleVoltage = s1.moduleVoltage := by
  unfold packVoltageUpd; repeat' split
  all_goals rfl

theorem packVoltageUpd_modulesInSeries (s1 : BatteryState) (module : Nat) :
    (packVoltageUpd s1 module).modulesInSeries = s1.modulesInSeries := by
  unfold packVoltageUpd; repeat' split
  all_goals rfl

theorem packVoltageUpd_rule (s1 : BatteryState) (module : Nat) :
    ((module : Int) ≠ (s1.numberOfModules : Int) - 1 → packVoltageUpd s1 module = s1) ∧
    ((module : Int) = (s1.numberOfModules : Int) - 1 →
      ((s1.moduleVoltage.take s1.modulesInSeries).all (fun v => decide (0 < v)) = true →
        (packVoltageUpd s1 module).voltage
          = (((s1.moduleVoltage.take s1.modulesInSeries).sum : Int) : Rat) * (1 / 1000)) ∧
      (¬ ((s1.moduleVoltage.take s1.modulesInSeries).all (fun v => decide (0 < v)) = true) →
        (packVoltageUpd s1 module).voltage = s1.voltage)) := by
  refine ⟨fun hne => ?_, fun heq => ⟨fun hall => ?_, fun hnall => ?_⟩⟩
  · unfold packVoltageUpd; rw [if_neg hne]
  · unfold packVoltageUpd; rw [if_pos heq, if_pos hall]
  · unfold packVoltageUpd; rw [if_pos heq, if_neg hnall]

theorem oddCellIds_dispatch (n : Nat) (h : n ∈ oddCellIds) :
    n ≠ 0xC0 ∧ n ≠ 0xC1 ∧ n ≠ 0xC2 ∧ n ≠ 0xC4 ∧ n ∉ evenCellIds := by
  fin_cases h <;> decide

theorem evenCellIds_dispatch (n : Nat) (h : n ∈ evenCellIds) :
    n ≠ 0xC0 ∧ n ≠ 0xC1 ∧ n ≠ 0xC2 ∧ n ≠ 0xC4 := by
  fin_cases h <;> decide

theorem mcIds_dispatch (n : Nat) (h : n ∈ ([0x46A, 0x46B, 0x46C, 0x46D] : List Nat)) :
    n ≠ 0xC0 ∧ n ≠ 0xC1 ∧ n ≠ 0xC2 ∧ n ≠ 0xC4 ∧ n ∉ evenCellIds ∧ n ∉ oddCellIds := by
  fin_cases h <;> decide

theorem socIds_dispatch (n : Nat) (h : n ∈ ([0x6A, 0x6B] : List Nat)) :
    n ≠ 0xC0 ∧ n ≠ 0xC1 ∧ n ≠ 0xC2 ∧ n ≠ 0xC4 ∧ n ∉ evenCellIds ∧ n ∉ oddCellIds ∧
    n ∉ ([0x46A, 0x46B, 0x46C, 0x46D] : List Nat) := by
  fin_cases h <;> decide

theorem tempIds_dispatch (n : Nat) (h : n ∈ ([0x76A, 0x76B, 0x76C, 0x76D] : List Nat)) :
    n ≠ 0xC0 ∧ n ≠ 0xC1 ∧ n ≠ 0xC2 ∧ n ≠ 0xC4 ∧ n ∉ evenCellIds ∧ n ∉ oddCellIds ∧
    n ∉ ([0x46A, 0x46B, 0x46C, 0x46D] : List Nat) ∧ n ∉ ([0x6A, 0x6B] : List Nat) := by
  fin_cases h <;> decide

theorem omr_eq_c0 (s : BatteryState) (m : CanMsg) (h : m.arbitration_id = 0xC0) :
    on_message_received s m = decodeC0 {s with updated := m.timestamp} m.data := by
  unfold on_message_received; dsimp only
  rw [if_pos h]

theorem omr_eq_c1 (s : BatteryState) (m : CanMsg) (h : m.arbitration_id = 0xC1) :
    on_message_received s m = decodeC1 {s with updated := m.timestamp} m.data := by
  unfold on_message_received; dsimp only
  rw [if_neg (by rw [h]; decide), if_pos h]

theorem omr_eq_c2 (s : BatteryState) (m : CanMsg) (h : m.arbitration_id = 0xC2) :
    on_message_received s m = decodeC2 {s with updated := m.timestamp} m.data := by
  unfold on_message_received; dsimp only
  rw [if_neg (by rw [h]; decide), if_neg (by rw [h]; decide), if_pos h]

theorem omr_eq_c4 (s : BatteryState) (m : CanMsg) (h : m.arbitration_id = 0xC4) :
    on_message_received s m = decodeC4 {s with updated := m.timestamp} m.data := by
  unfold on_message_received; dsimp only
  rw [if_neg (by rw [h]; decide), if_neg (by rw [h]; decide), if_neg (by rw [h]; decide),
    if_pos h]

theorem omr_eq_even (s : BatteryState) (m : CanMsg) (h : m.arbitration_id ∈ evenCellIds) :
    on_message_received s m
      = decodeCellEven {s with updated := m.timestamp}
          ((m.arbitration_id - 0x350) >>> 1) m.data := by
  obtain ⟨n1, n2, n3, n4⟩ := evenCellIds_dispatch _ h
  unfold on_message_received; dsimp only
  rw [if_neg n1, if_neg n2, if_neg n3, if_neg n4, if_pos h]

theorem omr_eq_odd (s : BatteryState) (m : CanMsg) (h : m.arbitration_id ∈ oddCellIds) :
    on_message_received s m
      = decodeCellOdd {s with updated := m.timestamp}
          ((m.arbitration_id - 0x351) >>> 1) m.data := by
  obtain ⟨n1, n2, n3, n4, n5⟩ := oddCellIds_dispatch _ h
  unfold on_message_received; dsimp only
  rw [if_neg n1, if_neg n2, if_neg n3, if_neg n4, if_neg n5, if_pos h]

theorem omr_eq_mc (s : BatteryState) (m : CanMsg)
    (h : m.arbitration_id ∈ ([0x46A, 0x46B, 0x46C, 0x46D] : List Nat)) :
    on_message_received s m
      = decodeModuleCurrent {s with updated := m.timestamp}
          ((m.arbitration_id - 0x46A) * 3) m.data := by
  obtain ⟨n1, n2, n3, n4, n5, n6⟩ := mcIds_dispatch _ h
  unfold on_message_received; dsimp only
  rw [if_neg n1, if_neg n2, if_neg n3, if_neg n4, if_neg n5, if_neg n6, if_pos h]

theorem omr_eq_soc (s : BatteryState) (m : CanMsg)
    (h : m.arbitration_id ∈ ([0x6A, 0x6B] : List Nat)) :
    on_message_received s m
      = decodeModuleSoc {s with updated := m.timestamp}
          ((m.arbitration_id - 0x6A) * 7) m.data := by
  obtain ⟨n1, n2, n3, n4, n5, n6, n7⟩ := socIds_dispatch _ h
  unfold on_message_received; dsimp only
  rw [if_neg n1, if_neg n2, if_neg n3, if_neg n4, if_neg n5, if_neg n6, if_neg n7, if_pos h]

theorem omr_eq_temp (s : BatteryState) (m : CanMsg)
    (h : m.arbitration_id ∈ ([0x76A, 0x76B, 0x76C, 0x76D] : List Nat)) :
    on_message_received s m
      = decodeModuleTemp {s with updated := m.timestamp}
          ((m.arbitration_id - 0x76A) * 3) m.data := by
  obtain ⟨n1, n2, n3, n4, n5, n6, n7, n8⟩ := tempIds_dispatch _ h
  unfold on_message_received; dsimp only
  rw [if_neg n1, if_neg n2, if_neg n3, if_neg n4, if_neg n5, if_neg n6, if_neg n7, if_neg n8,
    if_pos h]

theorem omr_eq_other (s : BatteryState) (m : CanMsg)
    (h1 : m.arbitration_id ≠ 0xC0) (h2 : m.arbitration_id ≠ 0xC1)
    (h3 : m.arbitration_id ≠ 0xC2) (h4 : m.arbitration_id ≠ 0xC4)
    (h5 : m.arbitration_id ∉ evenCellIds) (h6 : m.arbitration_id ∉ oddCellIds)
    (h7 : m.arbitration_id ∉ ([0x46A, 0x46B, 0x46C, 0x46D] : List Nat))
    (h8 : m.arbitration_id ∉ ([0x6A, 0x6B] : List Nat))
    (h9 : m.arbitration_id ∉ ([0x76A, 0x76B, 0x76C, 0x76D] : List Nat)) :
    on_message_received s m = ({s with updated := m.timestamp}, false) := by
  unfold on_message_received; dsimp only
  rw [if_neg h1, if_neg h2, if_neg h3, if_neg h4, if_neg h5, if_neg h6, if_neg h7,
    if_neg h8, if_neg h9]

/-- C3 (amended): every decode branch except the odd cell-voltage carriers is
idempotent: feeding any such frame twice from any state yields the same state
as feeding it once. -/
theorem decode_idempotent_except_odd (s : BatteryState) (m : CanMsg)
    (h : m.arbitration_id ∉ oddCellIds) :
    (on_message_received (on_message_received s m).1 m).1 = (on_message_received s m).1 := by
  by_cases h1 : m.arbitration_id = 0xC0
  · rw [omr_eq_c0 (on_message_received s m).1 m h1, omr_eq_c0 s m h1,
      collapse_updated _ _ ((decodeC0_updated _ _).trans rfl)]
    exact congrArg Prod.fst (decodeC0_idem _ _)
  by_cases h2 : m.arbitration_id = 0xC1
  · rw [omr_eq_c1 (on_message_received s m).1 m h2, omr_eq_c1 s m h2,
      collapse_updated _ _ ((decodeC1_updated _ _).trans rfl)]
    exact congrArg Prod.fst (decodeC1_idem _ _)
  by_cases h3 : m.arbitration_id = 0xC2
  · rw [omr_eq_c2 (on_message_received s m).1 m h3, omr_eq_c2 s m h3,
      collapse_updated _ _ ((decodeC2_updated _ _).trans rfl)]
    exact congrArg Prod.fst (decodeC2_idem _ _)
  by_cases h4 : m.arbitration_id = 0xC4
  · rw [omr_eq_c4 (on_message_received s m).1 m h4, omr_eq_c4 s m h4,
      collapse_updated _ _ ((decodeC4_updated _ _).trans rfl)]
    exact congrArg Prod.fst (decodeC4_idem _ _)
  by_cases h5 : m.arbitration_id ∈ evenCellIds
  · rw [omr_eq_even (on_message_received s m).1 m h5, omr_eq_even s m h5,
      collapse_updated _ _ ((decodeCellEven_updated _ _ _).trans rfl)]
    exact congrArg Prod.fst (decodeCellEven_idem _ _ _)
  by_cases h7 : m.arbitration_id ∈ ([0x46A, 0x46B, 0x46C, 0x46D] : List Nat)
  · rw [omr_eq_mc (on_message_received s m).1 m h7, omr_eq_mc s m h7,
      collapse_updated _ _ ((decodeModuleCurrent_updated _ _ _).trans rfl)]
    exact congrArg Prod.fst (decodeModuleCurrent_idem _ _ _)
  by_cases h8 : m.arbitration_id ∈ ([0x6A, 0x6B] : List Nat)
  · rw [omr_eq_soc (on_message_received s m).1 m h8, omr_eq_soc s m h8,
      collapse_updated _ _ ((decodeModuleSoc_updated _ _ _).trans rfl)]
    exact congrArg Prod.fst (decodeModuleSoc_idem _ _ _)
  by_cases h9 : m.arbitration_id ∈ ([0x76A, 0x76B, 0x76C, 0x76D] : List Nat)
  · rw [omr_eq_temp (on_message_received s m).1 m h9, omr_eq_temp s m h9,
      collapse_updated _ _ ((decodeModuleTemp_updated _ _ _).trans rfl)]
    exact congrArg Prod.fst (decodeModuleTemp_idem _ _ _)
  rw [omr_eq_other (on_message_received s m).1 m h1 h2 h3 h4 h5 h h7 h8 h9,
    omr_eq_other s m h1 h2 h3 h4 h5 h h7 h8 h9]

/-- C4 (amended): the pack voltage is written only by odd cell-voltage frames,
and there only when the frame's module equals `numberOfModules - 1` (integer
comparison, not `modulesInSeries - 1`); when it is recomputed it becomes the
sum of `moduleVoltage[0:modulesInSeries]` scaled by 1/1000 if all are
positive, and otherwise keeps its previous value. -/
theorem pack_voltage_update_rule (s : BatteryState) (m : CanMsg) :
    (m.arbitration_id ∉ oddCellIds → (on_message_received s m).1.voltage = s.voltage) ∧
    (m.arbitration_id ∈ oddCellIds →
      ((((m.arbitration_id - 0x351) >>> 1 : Nat) : Int) ≠ (s.numberOfModules : Int) - 1 →
        (on_message_received s m).1.voltage = s.voltage) ∧
      ((((m.arbitration_id - 0x351) >>> 1 : Nat) : Int) = (s.numberOfModules : Int) - 1 →
        (((on_message_received s m).1.moduleVoltage.take s.modulesInSeries).all
            (fun v => decide (0 < v)) = true →
          (on_message_received s m).1.voltage
            = ((((on_message_received s m).1.moduleVoltage.take s.modulesInSeries).sum : Int) : Rat)
                * (1 / 1000)) ∧
        (¬ (((on_message_received s m).1.moduleVoltage.take s.modulesInSeries).all
              (fun v => decide (0 < v)) = true) →
          (on_message_received s m).1.voltage = s.voltage))) := by
  constructor
  · intro h
    by_cases h1 : m.arbitration_id = 0xC0
    · rw [omr_eq_c0 s m h1]
      exact (decodeC0_voltage _ _).trans rfl
    by_cases h2 : m.arbitration_id = 0xC1
    · rw [omr_eq_c1 s m h2]
      exact (decodeC1_voltage _ _).trans rfl
    by_cases h3 : m.arbitration_id = 0xC2
    · rw [omr_eq_c2 s m h3]
      exact (decodeC2_voltage _ _).trans rfl
    by_cases h4 : m.arbitration_id = 0xC4
    · rw [omr_eq_c4 s m h4]
      exact (decodeC4_voltage _ _).trans rfl
    by_cases h5 : m.arbitration_id ∈ evenCellIds
    · rw [omr_eq_even s m h5]
      exact (decodeCellEven_voltage _ _ _).trans rfl
    by_cases h7 : m.arbitration_id ∈ ([0x46A, 0x46B, 0x46C, 0x46D] : List Nat)
    · rw [omr_eq_mc s m h7]
      exact (decodeModuleCurrent_voltage _ _ _).trans rfl
    by_cases h8 : m.arbitration_id ∈ ([0x6A, 0x6B] : List Nat)
    · rw [omr_eq_soc s m h8]
      exact (decodeModuleSoc_voltage _ _ _).trans rfl
    by_cases h9 : m.arbitration_id ∈ ([0x76A, 0x76B, 0x76C, 0x76D] : List Nat)
    · rw [omr_eq_temp s m h9]
      exact (decodeModuleTemp_voltage _ _ _).trans rfl
    rw [omr_eq_other s m h1 h2 h3 h4 h5 h h7 h8 h9]
  · intro hodd
    rw [omr_eq_odd s m hodd]
    unfold decodeCellOdd
    dsimp only
    obtain ⟨r1, r2⟩ := packVoltageUpd_rule
      (cellOddUpd {s with updated := m.timestamp} ((m.arbitration_id - 0x351) >>> 1) m.data)
      ((m.arbitration_id - 0x351) >>> 1)
    have hn : ((cellOddUpd {s with updated := m.timestamp}
        ((m.arbitration_id - 0x351) >>> 1) m.data).numberOfModules : Int)
        = (s.numberOfModules : Int) := by
      rw [cellOddUpd_numberOfModules]
    have hms : (cellOddUpd {s with updated := m.timestamp}
        ((m.arbitration_id - 0x351) >>> 1) m.data).modulesInSeries = s.modulesInSeries := by
      rw [cellOddUpd_modulesInSeries]
    have hmv := packVoltageUpd_moduleVoltage
      (cellOddUpd {s with updated := m.timestamp} ((m.arbitration_id - 0x351) >>> 1) m.data)
      ((m.arbitration_id - 0x351) >>> 1)
    constructor
    · intro hne
      rw [r1 (by rw [hn]; exact hne)]
      exact (cellOddUpd_voltage _ _ _).trans rfl
    · intro heq
      obtain ⟨q1, q2⟩ := r2 (by rw [hn]; exact heq)
      constructor
      · intro hall
        rw [hms, ← hmv] at q1
        exact q1 hall
      · intro hnall
        rw [hms, ← hmv] at q2
        rw [q2 hnall]
        exact (cellOddUpd_voltage _ _ _).trans rfl

theorem foldl_min_le_init (xs : List Int) (a : Int) : xs.foldl min a ≤ a := by
  induction xs generalizing a with
  | nil => exact le_refl a
  | cons y ys ih =>
      exact le_trans (ih (min a y)) (min_le_left a y)

theorem foldl_min_le_mem (xs : List Int) (a x : Int) (hx : x ∈ xs) : xs.foldl min a ≤ x := by
  induction xs generalizing a with
  | nil => cases hx
  | cons y ys ih =>
      rcases List.mem_cons.mp hx with h | h
      · subst h
        exact le_trans (foldl_min_le_init ys (min a x)) (min_le_right a x)
      · exact ih (min a y) h

theorem foldl_min_mem (xs : List Int) (a : Int) : xs.foldl min a = a ∨ xs.foldl min a ∈ xs := by
  induction xs generalizing a with
  | nil => exact Or.inl rfl
  | cons y ys ih =>
      rcases ih (min a y) with h | h
      · rcases min_choice a y with h2 | h2
        · exact Or.inl (by rw [List.foldl_cons, h, h2])
        · refine Or.inr ?_
          rw [List.foldl_cons, h, h2]
          exact List.mem_cons_self y ys
      · exact Or.inr (List.mem_cons_of_mem y h)

theorem pyListMin_le (l : List Int) (x : Int) (hx : x ∈ l) : pyListMin l ≤ x := by
  cases l with
  | nil => cases hx
  | cons y ys =>
      rcases List.mem_cons.mp hx with h | h
      · subst h; exact foldl_min_le_init ys x
      · exact foldl_min_le_mem ys y x h

theorem pyListMin_mem (l : List Int) (h : l ≠ []) : pyListMin l ∈ l := by
  cases l with
  | nil => exact absurd rfl h
  | cons y ys =>
      rcases foldl_min_mem ys y with h2 | h2
      · rw [pyListMin, h2]; exact List.mem_cons_self y ys
      · exact List.mem_cons_of_mem y h2

theorem mask_shift_le (x m k : Nat) : (x &&& m) >>> k ≤ m >>> k := by
  rw [Nat.shiftRight_eq_div_pow, Nat.shiftRight_eq_div_pow]
  exact Nat.div_le_div_right Nat.and_le_right

/-- C1 (code bug): `set_mode` never inspects the current mode: with the cyclic
task transmitting Charge (1), `set_mode 2` succeeds and retargets the periodic
`0x440` frame to Drive, contradicting the claim (and the source's own comment)
that direct Charge~Drive transitions are refused; conversely 2 to 1 also
succeeds, as does the Standby route 1, 0, 2. -/
theorem set_mode_accepts_direct_transitions :
    set_mode (some 1) 2 = (true, some 2) ∧ set_mode (some 2) 1 = (true, some 1) ∧
    set_mode (some 0) 1 = (true, some 1) ∧ set_mode (some 1) 0 = (true, some 0) ∧
    set_mode (some 0) 2 = (true, some 2) := by
  decide

/-- C2: `DbusBatteryService.__init__` passes `numberOfModules` and
`numberOfStrings` keyword arguments that `UbmsBattery.__init__` does not
declare, so the construction raises `TypeError` before any bus path is
registered (result `none`), and the battery's module/string counts are the
hard-coded 8 and 2. -/
theorem dbus_service_init_type_error :
    dbusBatteryServiceInit 58 130 = none ∧
    kwargsBind ubmsInitParams dbusServiceUbmsKwargs = false ∧
    s0.numberOfModules = 8 ∧ s0.numberOfStrings = 2 := by
  decide

/-- C5 (counterexample): with the last frame decoded at time 0 and a publish
tick at time 10 (elapsed 10 s, beyond the claimed 5 s timeout), the code still
publishes `/Connected = 1`: the published value tests only `updated ≠ -1`. -/
theorem connected_ignores_timeout_cex :
    sStatusFull.updated = 0 ∧ ¬ ((10 : Int) - sStatusFull.updated < 5) ∧
    publishConnected sStatusFull = 1 := by
  decide

/-- C5 (amended): `/Connected` is published as 1 iff any frame has ever been
decoded (`updated ≠ -1`); there is no timeout comparison, so after decoding
any frame with a real timestamp the publisher emits 1 at every later tick. -/
theorem connected_after_any_frame (s : BatteryState) (m : CanMsg)
    (h : m.timestamp ≠ -1) :
    publishConnected (on_message_received s m).1 = 1 := by
  unfold publishConnected
  rw [on_message_received_updated]
  exact if_neg h

/-- C5 witness: a frame at timestamp 7 makes the next tick publish 1. -/
theorem connected_after_any_frame_witness :
    publishConnected (on_message_received s0 ⟨0x123, [], 7⟩).1 = 1 :=
  connected_after_any_frame s0 ⟨0x123, [], 7⟩ (by decide)

/-- C7 (counterexample): a status frame with mode byte `0x18` stores
`mode = 0x18`; the claimed masked value `data[1] & 0x03` is 0. -/
theorem status_mode_unmasked_cex :
    sMode18.mode = 0x18 ∧ 0x18 &&& 0x03 = 0 ∧ sMode18.mode ≠ 0x18 &&& 0x03 := by
  decide

/-- C7 (amended): an 8-byte `0xC0` frame sets `soc = data[0]`, stores the FULL
byte `data[1]` as the mode (unmasked), sets the BMS state to `opState` of the
masked mode `data[1] & 3`, records `voltageAndCellTAlarms = data[2]` and
`shutdownReason = data[7]`, and adopts `data[5]` as the authoritative module
count exactly when `data[2] & 1 = 0` and `data[3] & 2 = 0`. -/
theorem status_frame_decode (s : BatteryState) (t : Int) (d0 d1 d2 d3 d4 d5 d6 d7 : Nat) :
    (on_message_received s ⟨0xC0, [d0, d1, d2, d3, d4, d5, d6, d7], t⟩).1.soc = d0 ∧
    (on_message_received s ⟨0xC0, [d0, d1, d2, d3, d4, d5, d6, d7], t⟩).1.mode = d1 ∧
    (on_message_received s ⟨0xC0, [d0, d1, d2, d3, d4, d5, d6, d7], t⟩).1.state
      = some (opState (d1 &&& 3)) ∧
    (on_message_received s ⟨0xC0, [d0, d1, d2, d3, d4, d5, d6, d7], t⟩).1.voltageAndCellTAlarms
      = d2 ∧
    (on_message_received s ⟨0xC0, [d0, d1, d2, d3, d4, d5, d6, d7], t⟩).1.numberOfModules
      = (if d2 &&& 1 = 0 ∧ d3 &&& 2 = 0 then d5 else s.numberOfModules) ∧
    (on_message_received s ⟨0xC0, [d0, d1, d2, d3, d4, d5, d6, d7], t⟩).1.shutdownReason = d7 :=
  ⟨rfl, rfl, rfl, rfl, rfl, rfl⟩

/-- C8 (counterexample): a status frame with `data[4] = 3` makes the published
`/Alarms/HighDischargeCurrent` equal 3, outside {0, 1}. -/
theorem alarm_values_exceed_boolean_cex :
    alarmHighDischargeCurrent sStatus3 = 3 ∧
    ¬ (alarmHighDischargeCurrent sStatus3 = 0 ∨ alarmHighDischargeCurrent sStatus3 = 1) := by
  decide

/-- C8 (amended): the single-bit alarms LowVoltage, HighVoltage and LowSoc are
in {0, 1}; CellImbalance is in {0, 1, 2}; HighDischargeCurrent,
HighChargeCurrent, LowTemperature and HighTemperature are 2-bit values in
0..3, for every battery state. -/
theorem alarm_value_ranges (s : BatteryState) :
    alarmLowVoltage s ≤ 1 ∧ alarmHighVoltage s ≤ 1 ∧ alarmLowSoc s ≤ 1 ∧
    alarmCellImbalance s ≤ 2 ∧ alarmHighDischargeCurrent s ≤ 3 ∧
    alarmHighChargeCurrent s ≤ 3 ∧ alarmLowTemperature s ≤ 3 ∧
    alarmHighTemperature s ≤ 3 := by
  have h4 : (2 : Nat) ^ 2 = 4 := rfl
  refine ⟨le_trans (mask_shift_le _ _ _) (by decide),
    le_trans (mask_shift_le _ _ _) (by decide),
    le_trans (mask_shift_le _ _ _) (by decide), ?_,
    le_trans Nat.and_le_right (by decide),
    le_trans (mask_shift_le _ _ _) (by decide),
    le_trans (mask_shift_le _ _ _) (by decide), ?_⟩
  · unfold alarmCellImbalance
    split_ifs <;> decide
  · unfold alarmHighTemperature
    have ha : (s.voltageAndCellTAlarms &&& 0x6) >>> 1 ≤ 3 :=
      le_trans (mask_shift_le _ _ _) (by decide)
    have hb : (s.currentAndPcbTAlarms &&& 0x18) >>> 3 ≤ 3 :=
      le_trans (mask_shift_le _ _ _) (by decide)
    have hor : ((s.voltageAndCellTAlarms &&& 0x6) >>> 1)
        ||| ((s.currentAndPcbTAlarms &&& 0x18) >>> 3) < 2 ^ 2 :=
      Nat.or_lt_two_pow (by rw [h4]; omega) (by rw [h4]; omega)
    rw [h4] at hor
    omega

/-- C9 (counterexample): a `0xC0` status frame with dlc = 1 (below the 8 bytes
its decode requires) mutates `soc` before the uncaught IndexError escapes:
state IS mutated by a short frame. -/
theorem short_status_frame_mutates_cex :
    (on_message_received s0 ⟨0xC0, [7], 0⟩).1.soc = 7 ∧ s0.soc = 0 ∧
    (on_message_received s0 ⟨0xC0, [7], 0⟩).2 = true := by
  decide

/-- C9 (amended): only the try-protected decoders reject short frames without
mutation: an even cell-voltage frame with fewer than 8 bytes leaves every
field except the liveness timestamp unchanged. -/
theorem short_even_cell_frame_no_mutation (s : BatteryState) (m : CanMsg)
    (h1 : m.arbitration_id ∈ evenCellIds) (h2 : m.data.length < 8) :
    (on_message_received s m).1 = {s with updated := m.timestamp} := by
  rw [omr_eq_even s m h1]
  unfold decodeCellEven
  rw [if_neg (by rintro ⟨-, h8⟩; omega)]

/-- C9 witness: a 3-byte frame on id 0x350 changes nothing but the
timestamp. -/
theorem short_even_cell_frame_no_mutation_witness :
    (on_message_received s0 ⟨0x350, [0, 0, 12], 0⟩).1 = {s0 with updated := 0} :=
  short_even_cell_frame_no_mutation s0 ⟨0x350, [0, 0, 12], 0⟩ (by decide) (by decide)

/-- C10: the stored per-module SoC `(raw × 100) >> 8` lies in 0..99 for every
raw byte 0..255; raw 255 maps to 99 and the value 100 is unreachable;
consequently the per-module SoC decoder keeps every stored entry at most
99. -/
theorem module_soc_store_bounds :
    (∀ raw : Nat, raw ≤ 255 → modSocStore raw ≤ 99 ∧ modSocStore raw ≠ 100) ∧
    modSocStore 255 = 99 ∧
    (∀ (s : BatteryState) (m : CanMsg), m.arbitration_id ∈ ([0x6A, 0x6B] : List Nat) →
      (∀ b ∈ m.data, b ≤ 255) → (∀ x ∈ s.moduleSoc, x ≤ 99) →
      ∀ x ∈ (on_message_received s m).1.moduleSoc, x ≤ 99) := by
  have hb : ∀ raw : Nat, raw ≤ 255 → modSocStore raw ≤ 99 := by
    intro raw h
    unfold modSocStore
    rw [Nat.shiftRight_eq_div_pow]
    calc raw * 100 / 2 ^ 8 ≤ 255 * 100 / 2 ^ 8 :=
          Nat.div_le_div_right (Nat.mul_le_mul_right 100 h)
      _ = 99 := by norm_num
  refine ⟨fun raw h => ⟨hb raw h, by have := hb raw h; omega⟩, by decide, ?_⟩
  intro s m hm hdata hsoc x hx
  rw [omr_eq_soc s m hm] at hx
  unfold decodeModuleSoc at hx
  dsimp only at hx
  rcases setFrom_mem _ _ _ _ hx with h | h
  · exact hsoc x h
  · rcases List.mem_map.mp h with ⟨b, hb2, rfl⟩
    exact hb b (hdata b (List.mem_of_mem_drop hb2))

/-- C10 witness: the bound and the decoder bound at a concrete frame. -/
theorem module_soc_store_bounds_witness :
    (modSocStore 255 ≤ 99 ∧ modSocStore 255 ≠ 100) ∧
    (∀ x ∈ (on_message_received s0 ⟨0x6A, [0, 255, 128], 0⟩).1.moduleSoc, x ≤ 99) :=
  ⟨module_soc_store_bounds.1 255 (by decide),
   module_soc_store_bounds.2.2 s0 ⟨0x6A, [0, 255, 128], 0⟩ (by decide) (by decide) (by decide)⟩

/-- C3 (counterexample): replaying the odd cell-voltage frame of module 0
appends another cell-4 entry to the module's tuple and raises the module
voltage: the odd carriers are not idempotent. -/
theorem odd_cell_decoder_not_idempotent_cex :
    (on_message_received (on_message_received sOneModule (mCellOdd 0)).1
        (mCellOdd 0)).1.cellVoltages
      ≠ (on_message_received sOneModule (mCellOdd 0)).1.cellVoltages ∧
    (on_message_received (on_message_received sOneModule (mCellOdd 0)).1
        (mCellOdd 0)).1.moduleVoltage
      ≠ (on_message_received sOneModule (mCellOdd 0)).1.moduleVoltage := by
  decide

/-- C3 witness: a status frame decoded twice equals it decoded once. -/
theorem decode_idempotent_except_odd_witness :
    (on_message_received (on_message_received s0 ⟨0xC0, [50, 2, 0, 0, 0, 8, 0, 0], 0⟩).1
        ⟨0xC0, [50, 2, 0, 0, 0, 8, 0, 0], 0⟩).1
      = (on_message_received s0 ⟨0xC0, [50, 2, 0, 0, 0, 8, 0, 0], 0⟩).1 :=
  decode_idempotent_except_odd s0 ⟨0xC0, [50, 2, 0, 0, 0, 8, 0, 0], 0⟩ (by decide)

/-- C4 (counterexample): after modules 0..3 (all `modulesInSeries = 4` series
modules) report 3300 mV cells, the odd frame of module
`modulesInSeries - 1 = 3` does NOT recompute the pack voltage: it stays 0
although every series module voltage is positive and the recompute would
yield 52.8 V (the code keys the recompute on `numberOfModules - 1 = 7`). -/
theorem pack_voltage_not_recomputed_cex :
    ((0x357 - 0x351) >>> 1 : Nat) = 3 ∧ sThreeAndAHalf.modulesInSeries - 1 = 3 ∧
    ((on_message_received sThreeAndAHalf (mCellOdd 3)).1.moduleVoltage.take 4)
      = [13200, 13200, 13200, 13200] ∧
    (on_message_received sThreeAndAHalf (mCellOdd 3)).1.voltage = sThreeAndAHalf.voltage ∧
    sThreeAndAHalf.voltage = 0 ∧
    ((52800 : Int) : Rat) * (1 / 1000) ≠ 0 :=
  ⟨by decide, by decide, by decide, by decide, by decide, by norm_num⟩

/-- C4 witness: a status frame leaves the pack voltage unchanged. -/
theorem pack_voltage_update_rule_witness :
    (on_message_received s0 ⟨0xC0, [50, 2, 0, 0, 0, 8, 0, 0], 0⟩).1.voltage = s0.voltage :=
  (pack_voltage_update_rule s0 ⟨0xC0, [50, 2, 0, 0, 0, 8, 0, 0], 0⟩).1 (by decide)

/-- C6 (counterexample): with module 0 fully reported at 3300 mV and modules
1..7 unreported (all-zero cells), the min reduction selects the value 0 at
the first zero cell, publishing location module 2 cell 1: zero (unreported)
cells are NOT excluded. -/
theorem min_cell_selection_zero_cex :
    (flatCellVoltages sOneModule).contains 3300 = true ∧
    pyListMin (flatCellVoltages sOneModule) = 0 ∧
    minVoltageCellIdPub sOneModule = (2, 1) ∧
    (flatCellVoltages sOneModule).getD
      ((flatCellVoltages sOneModule).indexOf (pyListMin (flatCellVoltages sOneModule))) 1
      = 0 := by
  decide

/-- C6 (amended): the reduction minimizes over ALL flattened cells including
zeros: the selected index is in range and holds the global minimum, that
minimum is a lower bound of every cell (zeros included), and the published
location is the index split by `cellsPerModule`; only an empty flat list
falls back to location M1C1. -/
theorem min_cell_selection_attains_min (s : BatteryState)
    (h : flatCellVoltages s ≠ []) :
    (flatCellVoltages s).indexOf (pyListMin (flatCellVoltages s))
      < (flatCellVoltages s).length ∧
    (flatCellVoltages s).getD
        ((flatCellVoltages s).indexOf (pyListMin (flatCellVoltages s))) 0
      = pyListMin (flatCellVoltages s) ∧
    (∀ x ∈ flatCellVoltages s, pyListMin (flatCellVoltages s) ≤ x) ∧
    minVoltageCellIdPub s =
      ((flatCellVoltages s).indexOf (pyListMin (flatCellVoltages s)) / s.cellsPerModule + 1,
       (flatCellVoltages s).indexOf (pyListMin (flatCellVoltages s)) % s.cellsPerModule
         + 1) := by
  have hmem := pyListMin_mem _ h
  have hidx := List.indexOf_lt_length.mpr hmem
  refine ⟨hidx, ?_, fun x hx => pyListMin_le _ x hx, ?_⟩
  · rw [List.getD_eq_getElem _ _ hidx]
    exact List.getElem_indexOf hidx
  · have hne : (flatCellVoltages s).isEmpty ≠ true := by
      simp [List.isEmpty_iff, h]
    unfold minVoltageCellIdPub
    rw [if_neg hne]

/-- C6 witness: with a concrete state the selected index is in range. -/
theorem min_cell_selection_attains_min_witness :
    (flatCellVoltages sOneModule).indexOf (pyListMin (flatCellVoltages sOneModule))
      < (flatCellVoltages sOneModule).length :=
  (min_cell_selection_attains_min sOneModule (by decide)).1
